import Mathlib

/-!
# Verification of the aften WAV decoder front-end (`src/aften/wav.c`)

This file is a shallow embedding, in Lean 4, of the WAVE container parser,
sample-format conversion engine and seek abstraction implemented in
`src/aften/wav.c`, together with theorems settling the specification claims
about that code.

Modelling conventions:
* Machine integers are modelled as `Int`/`Nat`.  A store into a C
  `uint8_t`/`int16_t`/`int32_t` object is modelled by an explicit reduction
  mod 2^8/2^16/2^32 (two's complement for the signed types); these reductions
  are the identity whenever the C operand ranges apply.
* C `float`/`double` sample values are modelled as `Rat`, with the IEEE
  arithmetic modelled exactly (the operations the code performs at the claimed
  boundary points — multiplication by powers of two, comparison against
  integer bounds — are exact in IEEE 754 as well).  A float-to-integer C cast
  truncates toward zero, modelled by `ratTrunc`.
* The input transport (`FILE*`) is modelled as a byte list plus a read
  position.  `fread` on a regular file consumes `min(requested, available)`
  bytes; `fseek(..., SEEK_SET)` on a regular file succeeds for any
  non-negative destination (also past end-of-file); a relative `fseek` fails
  exactly when the resulting absolute position would be negative.
* The host is little-endian (`WORDS_BIGENDIAN` undefined), so `le2me_16/32`
  are the identity and the byte-swap blocks are compiled out.
-/

/-- Modelled from the spec: the seven sample representations plus the unknown
format, declared by `enum WavSampleFormat` in `wav.h` (not under `src/`); the
spec lists exactly {U8, S16, S20, S24, S32, FLT, DBL} plus *unknown*. -/
inductive WavSampleFormat where
  | unknown
  | u8
  | s16
  | s20
  | s24
  | s32
  | flt
  | dbl
deriving DecidableEq, Repr

/-- The C storage type of a sample buffer of a given format: `uint8_t`,
`int16_t` and the three `int32_t`-backed formats are modelled as `Int`,
`float`/`double` as `Rat`.  (For `unknown` no buffer is ever interpreted;
`Int` is used as the carrier.) -/
def SampleValue : WavSampleFormat → Type
  | .unknown => Int
  | .u8 => Int
  | .s16 => Int
  | .s20 => Int
  | .s24 => Int
  | .s32 => Int
  | .flt => Rat
  | .dbl => Rat

/-- Conversion of an `int` value to `uint8_t` (store into a `uint8_t` object):
reduction mod 2^8. -/
def toU8 (x : Int) : Int := x.emod 256

/-- Store into an `int16_t` object: two's-complement reduction mod 2^16. -/
def wrap16 (x : Int) : Int := (x + 32768).emod 65536 - 32768

/-- Store into an `int32_t` object: two's-complement reduction mod 2^32. -/
def wrap32 (x : Int) : Int := (x + 2147483648).emod 4294967296 - 2147483648

/-- C cast of a floating-point value to an integer type: truncation toward
zero. -/
def ratTrunc (q : Rat) : Int := if 0 ≤ q then ⌊q⌋ else ⌈q⌉

/-- Modelled from the spec: the `CLIP(x,min,max)` macro of `common.h` (not
under `src/`), which clips `x` into `[min,max]`; rational version, used where
the C macro is applied to `float`/`double` expressions. -/
def clipQ (x lo hi : Rat) : Rat := max lo (min x hi)

/-- Modelled from the spec: the `CLIP(x,min,max)` macro of `common.h` (not
under `src/`); integer version, used where the C macro is applied to
`int64_t` expressions. -/
def clipI (x lo hi : Int) : Int := max lo (min x hi)

/-- `fmt_convert_to_u8` (wav.c lines 304-344).  `dest` is the caller's output
buffer: it is returned untouched when no branch matches `fmt` (the C function
writes nothing in that case). -/
def fmt_convert_to_u8 (dest : List Int) (fmt : WavSampleFormat)
    (src : List (SampleValue fmt)) : List Int :=
  match fmt, src with
  | .u8, src => src
  | .s16, src => src.map fun x => toU8 (x.ediv 256 + 128)
  | .s20, src => src.map fun x => toU8 (x.ediv 4096 + 128)
  | .s24, src => src.map fun x => toU8 (x.ediv 65536 + 128)
  | .s32, src => src.map fun x => toU8 (x.ediv 16777216 + 128)
  | .flt, src => src.map fun x => toU8 (ratTrunc (clipQ (x * 128 + 128) 0 255))
  | .dbl, src => src.map fun x => toU8 (ratTrunc (clipQ (x * 128 + 128) 0 255))
  | .unknown, _ => dest

/-- `fmt_convert_to_s16` (wav.c lines 346-386). -/
def fmt_convert_to_s16 (dest : List Int) (fmt : WavSampleFormat)
    (src : List (SampleValue fmt)) : List Int :=
  match fmt, src with
  | .u8, src => src.map fun x => wrap16 ((x - 128) * 256)
  | .s16, src => src
  | .s20, src => src.map fun x => wrap16 (x.ediv 16)
  | .s24, src => src.map fun x => wrap16 (x.ediv 256)
  | .s32, src => src.map fun x => wrap16 (x.ediv 65536)
  | .flt, src => src.map fun x => wrap16 (ratTrunc (clipQ (x * 32768) (-32768) 32767))
  | .dbl, src => src.map fun x => wrap16 (ratTrunc (clipQ (x * 32768) (-32768) 32767))
  | .unknown, _ => dest

/-- `fmt_convert_to_s20` (wav.c lines 388-428). -/
def fmt_convert_to_s20 (dest : List Int) (fmt : WavSampleFormat)
    (src : List (SampleValue fmt)) : List Int :=
  match fmt, src with
  | .u8, src => src.map fun x => wrap32 ((x - 128) * 4096)
  | .s16, src => src.map fun x => wrap32 (x * 16)
  | .s20, src => src
  | .s24, src => src.map fun x => wrap32 (x.ediv 16)
  | .s32, src => src.map fun x => wrap32 (x.ediv 4096)
  | .flt, src => src.map fun x => wrap32 (ratTrunc (clipQ (x * 524288) (-524288) 524287))
  | .dbl, src => src.map fun x => wrap32 (ratTrunc (clipQ (x * 524288) (-524288) 524287))
  | .unknown, _ => dest

/-- `fmt_convert_to_s24` (wav.c lines 430-470). -/
def fmt_convert_to_s24 (dest : List Int) (fmt : WavSampleFormat)
    (src : List (SampleValue fmt)) : List Int :=
  match fmt, src with
  | .u8, src => src.map fun x => wrap32 ((x - 128) * 65536)
  | .s16, src => src.map fun x => wrap32 (x * 256)
  | .s20, src => src.map fun x => wrap32 (x * 16)
  | .s24, src => src
  | .s32, src => src.map fun x => wrap32 (x.ediv 256)
  | .flt, src => src.map fun x => wrap32 (ratTrunc (clipQ (x * 8388608) (-8388608) 8388607))
  | .dbl, src => src.map fun x => wrap32 (ratTrunc (clipQ (x * 8388608) (-8388608) 8388607))
  | .unknown, _ => dest

/-- `fmt_convert_to_s32` (wav.c lines 472-512).  The float/double branches
cast `src[i] * 2147483648` to `int` with no `CLIP` (the one unclipped
float-to-integer pair); the resulting store is reduced mod 2^32 like every
other `int` store. -/
def fmt_convert_to_s32 (dest : List Int) (fmt : WavSampleFormat)
    (src : List (SampleValue fmt)) : List Int :=
  match fmt, src with
  | .u8, src => src.map fun x => wrap32 ((x - 128) * 16777216)
  | .s16, src => src.map fun x => wrap32 (x * 65536)
  | .s20, src => src.map fun x => wrap32 (x * 4096)
  | .s24, src => src.map fun x => wrap32 (x * 256)
  | .s32, src => src
  | .flt, src => src.map fun x => wrap32 (ratTrunc (x * 2147483648))
  | .dbl, src => src.map fun x => wrap32 (ratTrunc (x * 2147483648))
  | .unknown, _ => dest

/-- `fmt_convert_to_float` (wav.c lines 514-552).  The `double` branch is the
C narrowing cast `(float)src[i]`, exact in the `Rat` model. -/
def fmt_convert_to_float (dest : List Rat) (fmt : WavSampleFormat)
    (src : List (SampleValue fmt)) : List Rat :=
  match fmt, src with
  | .u8, src => src.map fun (x : Int) => ((x : Rat) - 128) / 128
  | .s16, src => src.map fun (x : Int) => (x : Rat) / 32768
  | .s20, src => src.map fun (x : Int) => (x : Rat) / 524288
  | .s24, src => src.map fun (x : Int) => (x : Rat) / 8388608
  | .s32, src => src.map fun (x : Int) => (x : Rat) / 2147483648
  | .flt, src => src
  | .dbl, src => src.map fun x => x
  | .unknown, _ => dest

/-- `fmt_convert_to_double` (wav.c lines 554-592). -/
def fmt_convert_to_double (dest : List Rat) (fmt : WavSampleFormat)
    (src : List (SampleValue fmt)) : List Rat :=
  match fmt, src with
  | .u8, src => src.map fun (x : Int) => ((x : Rat) - 128) / 128
  | .s16, src => src.map fun (x : Int) => (x : Rat) / 32768
  | .s20, src => src.map fun (x : Int) => (x : Rat) / 524288
  | .s24, src => src.map fun (x : Int) => (x : Rat) / 8388608
  | .s32, src => src.map fun (x : Int) => (x : Rat) / 2147483648
  | .flt, src => src.map fun x => x
  | .dbl, src => src
  | .unknown, _ => dest

/-- `fmt_convert` (wav.c lines 594-623): dispatch on the destination format;
the `default` case (destination `unknown`) writes nothing. -/
def fmt_convert (dest_fmt : WavSampleFormat) (dest : List (SampleValue dest_fmt))
    (src_fmt : WavSampleFormat) (src : List (SampleValue src_fmt)) :
    List (SampleValue dest_fmt) :=
  match dest_fmt, dest with
  | .u8, dest => fmt_convert_to_u8 dest src_fmt src
  | .s16, dest => fmt_convert_to_s16 dest src_fmt src
  | .s20, dest => fmt_convert_to_s20 dest src_fmt src
  | .s24, dest => fmt_convert_to_s24 dest src_fmt src
  | .s32, dest => fmt_convert_to_s32 dest src_fmt src
  | .flt, dest => fmt_convert_to_float dest src_fmt src
  | .dbl, dest => fmt_convert_to_double dest src_fmt src
  | .unknown, dest => dest

/-- The input transport: a `FILE*` over a regular byte stream, modelled as the
full byte sequence plus the current read position (the position may lie past
the end after an absolute seek beyond end-of-file). -/
structure AftFile where
  data : List Nat
  pos : Nat
deriving DecidableEq, Repr

/-- `read4le` (wav.c lines 41-48): reads a 4-byte little-endian word.  When
fewer than 4 bytes remain, `fread` consumes whatever is left, `feof` becomes
true and the function returns 0. -/
def read4le (f : AftFile) : Nat × AftFile :=
  if f.pos + 4 ≤ f.data.length then
    (f.data.getD f.pos 0 + 256 * f.data.getD (f.pos + 1) 0 +
       65536 * f.data.getD (f.pos + 2) 0 + 16777216 * f.data.getD (f.pos + 3) 0,
     { f with pos := f.pos + 4 })
  else
    (0, { f with pos := max f.pos f.data.length })

/-- `read2le` (wav.c lines 53-60): reads a 2-byte little-endian word, 0 at
end-of-file. -/
def read2le (f : AftFile) : Nat × AftFile :=
  if f.pos + 2 ≤ f.data.length then
    (f.data.getD f.pos 0 + 256 * f.data.getD (f.pos + 1) 0,
     { f with pos := f.pos + 2 })
  else
    (0, { f with pos := max f.pos f.data.length })

/-- Modelled from the spec: the `WavFile` stream handle plus format
descriptor declared in `wav.h` (not under `src/`), with exactly the fields
`wav.c` uses.  The `FILE *fp` member is the separate `AftFile` value threaded
through every operation; `filepos`, `file_size`, `data_start`, `data_size`
and `samples` are `uint64_t`, the remaining numeric fields hold the
non-negative values read from the header. -/
structure WavFile where
  seekable : Bool
  filepos : Nat
  file_size : Nat
  format : Nat
  channels : Nat
  sample_rate : Nat
  block_align : Nat
  bit_width : Nat
  ch_mask : Nat
  bytes_per_sec : Nat
  source_format : WavSampleFormat
  read_format : WavSampleFormat
  data_start : Nat
  data_size : Nat
  samples : Nat
deriving DecidableEq, Repr

def RIFF_ID : Nat := 0x46464952
def WAVE_ID : Nat := 0x45564157
def FMT__ID : Nat := 0x20746D66
def DATA_ID : Nat := 0x61746164

/-- Modelled from the spec: standard WAVE format tag for plain PCM (the
constant is declared outside `src/`). -/
def WAVE_FORMAT_PCM : Nat := 0x0001

/-- Modelled from the spec: standard WAVE format tag for IEEE float data. -/
def WAVE_FORMAT_IEEEFLOAT : Nat := 0x0003

/-- Modelled from the spec: standard WAVE format tag for the extensible
variant. -/
def WAVE_FORMAT_EXTENSIBLE : Nat := 0xFFFE

def INT32_MAX : Int := 2147483647
def INT32_MIN : Int := -2147483648

/-- The forward-only emulated seek of `aft_seek_set` (wav.c lines 94-108):
discards bytes from the stream until the destination is reached; a backward
destination fails; reaching end-of-file before the destination is not an
error, and the tracked position is set to `dest` exactly on every successful
exit. -/
def aftSlowSeek (wf : WavFile) (f : AftFile) (dest : Nat) : Int × WavFile × AftFile :=
  if dest < wf.filepos then (-1, wf, f)
  else
    let consumed := dest - wf.filepos
    (0, { wf with filepos := dest },
     { f with pos := max (min (f.pos + consumed) f.data.length) f.pos })

/-- `aft_seek_set` (wav.c lines 67-111): seek to absolute byte offset `dest`,
limiting true-seek offsets to signed 32 bits and falling back to the
forward-only emulated seek for streaming input or far-forward destinations.
`fseek(fp, ..., SEEK_SET)` on a regular file succeeds for any destination in
`long` range; a relative `fseek` fails when the resulting absolute position
would be negative. -/
def aft_seek_set (wf : WavFile) (f : AftFile) (dest : Nat) : Int × WavFile × AftFile :=
  if wf.seekable then
    if (dest : Int) ≤ INT32_MAX then
      (0, { wf with filepos := dest }, { f with pos := dest })
    else
      let offset : Int := (dest : Int) - (wf.filepos : Int)
      if INT32_MIN ≤ offset ∧ offset ≤ INT32_MAX then
        let newabs : Int := (f.pos : Int) + offset
        if newabs < 0 then (-1, wf, f)
        else (0, { wf with filepos := dest }, { f with pos := newabs.toNat })
      else if offset < 0 then (-1, wf, f)
      else aftSlowSeek wf f dest
  else aftSlowSeek wf f dest

/-- `uint64_t` subtraction `a - b` (wraps mod 2^64); used where `wav.c`
subtracts `uint64_t` fields whose ordering is not locally guaranteed. -/
def u64sub (a b : Nat) : Nat := (a + 18446744073709551616 - b) % 18446744073709551616

/-- The default channel-mask table of `wavfile_init` (wav.c lines 239-248):
configurations for 1-6 channels; other channel counts leave the mask at 0. -/
def defaultChMask (channels : Nat) : Nat :=
  if channels = 1 then 0x04
  else if channels = 2 then 0x03
  else if channels = 3 then 0x07
  else if channels = 4 then 0x107
  else if channels = 5 then 0x37
  else if channels = 6 then 0x3F
  else 0

/-- The channel-mask fixup of `wavfile_init` (wav.c lines 236-248): a zero
(unspecified) mask is replaced by the default configuration for the channel
count. -/
def resolveChMask (cm channels : Nat) : Nat :=
  if cm = 0 then defaultChMask channels else cm

/-- The shared tail of the `fmt` chunk branch: propagate the result of the
leftover-skipping `aft_seek_set` call, turning a failed seek into the -1
return of `wavfile_init` (wav.c lines 251-254). -/
def seekSkip (s : Int × WavFile × AftFile) : Option (WavFile × AftFile) :=
  if s.1 ≠ 0 then none else some (s.2.1, s.2.2)

/-- The `fmt` chunk branch of `wavfile_init` (wav.c lines 187-256): reads and
validates the format fields, handles the `WAVE_FORMAT_EXTENSIBLE` extension,
recomputes the block alignment for PCM/float, fills in a default channel
mask, and skips any leftover bytes of the chunk via `aft_seek_set`.
`chunksize0` is the declared chunk size; the handle's `filepos` advances by
2+2+4+4+2+2 for the fixed fields and 4+4+2 more for the extension.  (The C
code interleaves its zero-checks with the reads and returns -1 immediately;
since a failed `wavfile_init` discards both handle and stream, hoisting the
reads before the checks is observationally equivalent.) -/
def chunkFmt (wf0 : WavFile) (fp0 : AftFile) (chunksize0 : Nat) :
    Option (WavFile × AftFile) :=
  if chunksize0 < 16 then none else
  let r1 := read2le fp0
  let r2 := read2le r1.2
  let r3 := read4le r2.2
  let r4 := read4le r3.2
  let r5 := read2le r4.2
  let r6 := read2le r5.2
  if r2.1 = 0 then none else
  if r3.1 = 0 then none else
  if r6.1 = 0 then none else
  let ext := r1.1 = WAVE_FORMAT_EXTENSIBLE ∧ 10 ≤ chunksize0 - 16
  let e1 := read4le r6.2
  let e2 := read4le e1.2
  let e3 := read2le e2.2
  let ch_mask0 := if ext then e2.1 else 0
  let format := if ext then e3.1 else r1.1
  let fpA := if ext then e3.2 else r6.2
  let chunksize := if ext then chunksize0 - 16 - 10 else chunksize0 - 16
  let fpos := if ext then wf0.filepos + 2 + 2 + 4 + 4 + 2 + 2 + 4 + 4 + 2
    else wf0.filepos + 2 + 2 + 4 + 4 + 2 + 2
  let block_align :=
    if format = WAVE_FORMAT_PCM ∨ format = WAVE_FORMAT_IEEEFLOAT then
      max 1 (((r6.1 + 7) / 8) * r2.1)
    else r5.1
  let wfA : WavFile :=
    { wf0 with
      format := format, channels := r2.1, sample_rate := r3.1,
      block_align := block_align, bit_width := r6.1,
      ch_mask := resolveChMask ch_mask0 r2.1,
      bytes_per_sec := r3.1 * block_align, filepos := fpos }
  seekSkip (aft_seek_set wfA fpA (fpos + chunksize))

/-- The end-of-file clamp applied when the `data` chunk is registered
(wav.c lines 261-264): on a seekable stream with a known (non-zero) file
size, the declared data size is limited to the bytes between `data_start`
and the end of the file (`uint64_t` subtraction). -/
def clampDataSize (seekable : Bool) (file_size data_start data_size : Nat) : Nat :=
  if seekable ∧ 0 < file_size then min data_size (u64sub file_size data_start)
  else data_size

/-- The chunk-reading loop of `wavfile_init` (wav.c lines 176-275), written
with a fuel parameter: every iteration either consumes at least 8 bytes of
the stream or fails, so any fuel exceeding the stream length reproduces the
C loop exactly.  Returns the updated handle and stream at the `data` chunk. -/
def parseChunks : Nat → WavFile → AftFile → Bool → Option (WavFile × AftFile)
  | 0, _, _, _ => none
  | fuel + 1, wf0, fp0, found_fmt =>
    let ri := read4le fp0
    let wf := { wf0 with filepos := wf0.filepos + 4 }
    let rc := read4le ri.2
    let wf := { wf with filepos := wf.filepos + 4 }
    let id := ri.1
    let chunksize := rc.1
    if id = 0 ∨ chunksize = 0 then none
    else if id = FMT__ID then
      match chunkFmt wf rc.2 chunksize with
      | none => none
      | some (wf1, fp1) => parseChunks fuel wf1 fp1 true
    else if id = DATA_ID then
      if found_fmt = false then none
      else
        let wf := { wf with data_size := chunksize, data_start := wf.filepos }
        let wf :=
          { wf with
            data_size := clampDataSize wf.seekable wf.file_size wf.data_start wf.data_size }
        let wf := { wf with samples := wf.data_size / wf.block_align }
        some (wf, rc.2)
    else
      match seekSkip (aft_seek_set wf rc.2 (wf.filepos + chunksize)) with
      | none => none
      | some (wf2, fp2) => parseChunks fuel wf2 fp2 found_fmt

/-- Resolution of the source sample format from the container format tag and
bit width (wav.c lines 277-299). -/
def sourceFormatOf (format bit_width : Nat) : WavSampleFormat :=
  if format = WAVE_FORMAT_PCM ∨ format = WAVE_FORMAT_IEEEFLOAT then
    if bit_width = 8 then .u8
    else if bit_width = 16 then .s16
    else if bit_width = 20 then .s20
    else if bit_width = 24 then .s24
    else if bit_width = 32 then
      if format = WAVE_FORMAT_IEEEFLOAT then .flt
      else if format = WAVE_FORMAT_PCM then .s32
      else .unknown
    else if bit_width = 64 then
      if format = WAVE_FORMAT_IEEEFLOAT then .dbl else .unknown
    else .unknown
  else .unknown

/-- The zero-initialized handle produced by `memset(wf, 0, sizeof(WavFile))`
(wav.c line 130). -/
def zeroWavFile : WavFile :=
  { seekable := false, filepos := 0, file_size := 0, format := 0, channels := 0,
    sample_rate := 0, block_align := 0, bit_width := 0, ch_mask := 0,
    bytes_per_sec := 0, source_format := .unknown, read_format := .unknown,
    data_start := 0, data_size := 0, samples := 0 }

/-- The source/read-format resolution epilogue of `wavfile_init`
(wav.c lines 277-299), applied to the chunk loop's outcome.  Note the C
order at lines 278-279: `read_format` is assigned while `source_format`
still holds `WAV_SAMPLE_FMT_UNKNOWN`, so after `wavfile_init` the read
format is always `unknown` until the caller changes it. -/
def initFormats (r : Option (WavFile × AftFile)) : Option (WavFile × AftFile) :=
  match r with
  | none => none
  | some (wf, fp) =>
    let wf := { wf with source_format := .unknown }
    let wf := { wf with read_format := wf.source_format }
    let wf := { wf with source_format := sourceFormatOf wf.format wf.bit_width }
    some (wf, fp)

/-- Body of `wavfile_init` after the null checks (wav.c lines 130-301).
`seekable` is whether the transport supports random access (detected in C by
a probing `fseek`); for a seekable stream the file size is measured by
seek-to-end/`ftell` and the stream rewound. -/
def wavfile_init_core (fp : AftFile) (seekable : Bool) : Option (WavFile × AftFile) :=
  let wf := zeroWavFile
  let wf := { wf with seekable := seekable }
  let wf := if seekable then { wf with file_size := fp.data.length } else wf
  let fp := if seekable then { fp with pos := 0 } else fp
  let wf := { wf with filepos := 0 }
  let r1 := read4le fp
  let wf := { wf with filepos := wf.filepos + 4 }
  if r1.1 ≠ RIFF_ID then none else
  let r2 := read4le r1.2
  let wf := { wf with filepos := wf.filepos + 4 }
  let r3 := read4le r2.2
  let wf := { wf with filepos := wf.filepos + 4 }
  if r3.1 ≠ WAVE_ID then none else
  initFormats (parseChunks (fp.data.length + 1) wf r3.2 false)

/-- `wavfile_init` (wav.c lines 119-302).  `wfNull` models a NULL `WavFile*`
argument and `fp? = none` a NULL `FILE*`; either is rejected up front
(returning -1, modelled as `none`). -/
def wavfile_init (wfNull : Bool) (fp? : Option AftFile) (seekable : Bool) :
    Option (WavFile × AftFile) :=
  if wfNull then none
  else
    match fp? with
    | none => none
    | some fp => wavfile_init_core fp seekable

/-- Modelled from the spec: `WAV_MAX_READ`, the implementation-defined
maximum number of samples per read call (declared in `wav.h`, not under
`src/`; the spec fixes no value — any positive bound exhibits the specified
clamping, and no claim depends on the value). -/
def WAV_MAX_READ : Int := 4096

/-- Unpacking of one packed little-endian 3-byte sample group into a signed
32-bit integer, sign-extending at bit 20 or 24 (wav.c lines 688-697). -/
def unpack3sample (b0 b1 b2 bit_width : Nat) : Int :=
  let v : Int := (b0 : Int) + 256 * b1 + 65536 * b2
  if bit_width = 20 then (if 524288 ≤ v then v - 1048576 else v)
  else if bit_width = 24 then (if 8388608 ≤ v then v - 16777216 else v)
  else v

/-- Unpacking of one little-endian 4-byte PCM sample group into a signed
32-bit integer with explicit sign handling (wav.c lines 718-724). -/
def unpack4sample (b0 b1 b2 b3 : Nat) : Int :=
  let v64 : Int := (b0 : Int) + 256 * b1 + 65536 * b2 + 16777216 * b3
  if 2147483648 ≤ v64 then v64 - 4294967296 else v64

/-- The byte/sample accounting at the head of `wavfile_read_samples`
(wav.c lines 648-656): clamp the request to `WAV_MAX_READ`, compute
`bytes_needed = block_align * num_samples` (an `int` product stored into a
`uint32_t`), and shrink both values when the request would run past the end
of the data chunk (`uint64` end-of-chunk arithmetic truncated to
`uint32_t`).  Returns `(bytes_needed, num_samples)`. -/
def readClampPair (wf : WavFile) (n : Int) : Nat × Int :=
  let ns1 : Int := min n WAV_MAX_READ
  let bn : Nat := (((wf.block_align : Int) * ns1).emod 4294967296).toNat
  if wf.data_start + wf.data_size ≤ wf.filepos + bn then
    let bn2 : Nat :=
      ((((wf.data_start : Int) + wf.data_size - wf.filepos).emod
          18446744073709551616).toNat) % 4294967296
    (bn2, (bn2 / wf.block_align : Nat))
  else (bn, ns1)

/-- The number of whole frames `fread(buffer, block_align, num_samples, fp)`
returns (wav.c line 663): `min(num_samples, available / block_align)`. -/
def readNrOf (wf : WavFile) (f : AftFile) (ns : Int) : Nat :=
  min ns.toNat ((f.data.length - f.pos) / wf.block_align)

/-- `wavfile_read_samples` (wav.c lines 632-746).  Returns
`(ret, handle, stream, converted)` where `converted` records whether
`fmt_convert` was invoked (the conversion itself writes the caller's output
buffer; the converter is modelled by `fmt_convert` above, and the raw-sample
unpacking by `unpack3sample`/`unpack4sample`).  `wf? = none` models a NULL
handle (`wf == NULL || wf->fp == NULL`) and `outputNull` a NULL output
buffer.  Note that `wf->filepos` is advanced by the bytes consumed *before*
the per-`bps` dispatch, and that a `bps` value matching no dispatch arm
falls through to `return nr` without converting anything. -/
def wavfile_read_samples (wf? : Option WavFile) (f : AftFile) (outputNull : Bool)
    (num_samples : Int) : Int × Option WavFile × AftFile × Bool :=
  match wf? with
  | none => (-1, none, f, false)
  | some wf =>
    if outputNull then (-1, some wf, f, false)
    else if wf.block_align = 0 then (-1, some wf, f, false)
    else
      let ns := (readClampPair wf num_samples).2
      if ns ≤ 0 then (0, some wf, f, false)
      else
        let nr : Nat := readNrOf wf f ns
        let bytesConsumed : Nat := min (wf.block_align * ns.toNat) (f.data.length - f.pos)
        let f1 : AftFile := { f with pos := f.pos + bytesConsumed }
        let wf1 : WavFile := { wf with filepos := wf.filepos + nr * wf.block_align }
        let nsmp : Nat := nr * wf.channels
        let bps : Nat := wf.block_align / wf.channels
        if bps = 1 then
          if wf.source_format ≠ .u8 then (-1, some wf1, f1, false)
          else ((nr : Int), some wf1, f1, true)
        else if bps = 2 then
          if wf.source_format ≠ .s16 then (-1, some wf1, f1, false)
          else ((nr : Int), some wf1, f1, true)
        else if bps = 3 then
          if 0 < nsmp ∧ wf.bit_width ≠ 20 ∧ wf.bit_width ≠ 24 then (-1, some wf1, f1, false)
          else if wf.source_format ≠ .s20 ∧ wf.source_format ≠ .s24 then
            (-1, some wf1, f1, false)
          else ((nr : Int), some wf1, f1, true)
        else if bps = 4 then
          if wf.format = WAVE_FORMAT_IEEEFLOAT then
            if wf.source_format ≠ .flt then (-1, some wf1, f1, false)
            else ((nr : Int), some wf1, f1, true)
          else
            if wf.source_format ≠ .s32 then (-1, some wf1, f1, false)
            else ((nr : Int), some wf1, f1, true)
        else if wf.format = WAVE_FORMAT_IEEEFLOAT ∧ bps = 8 then
          if wf.source_format ≠ .dbl then (-1, some wf1, f1, false)
          else ((nr : Int), some wf1, f1, true)
        else
          ((nr : Int), some wf1, f1, false)

/-- Modelled from the spec: the `WAV_SEEK_SET` whence selector of `wav.h`
(not under `src/`); the spec fixes only that the three selectors are
distinct. -/
def WAV_SEEK_SET : Nat := 0

/-- Modelled from the spec: the `WAV_SEEK_CUR` whence selector of `wav.h`. -/
def WAV_SEEK_CUR : Nat := 1

/-- Modelled from the spec: the `WAV_SEEK_END` whence selector of `wav.h`. -/
def WAV_SEEK_END : Nat := 2

/-- `wavfile_seek_samples` (wav.c lines 753-789): convert the sample offset
to a byte offset, clamp the destination into the data chunk per `whence`,
and delegate to `aft_seek_set`.  `wf? = none` models a NULL handle. -/
def wavfile_seek_samples (wf? : Option WavFile) (f : AftFile) (offset : Int)
    (whence : Nat) : Int × Option WavFile × AftFile :=
  match wf? with
  | none => (-1, none, f)
  | some wf =>
    if wf.block_align = 0 then (-1, some wf, f)
    else if wf.filepos < wf.data_start then (-1, some wf, f)
    else if wf.data_size = 0 then (0, some wf, f)
    else
      let fpos : Int := wf.filepos
      let dst : Int := wf.data_start
      let dsz : Int := wf.data_size
      let byte_offset : Int := offset * wf.block_align
      let seekTo : Int → Int × Option WavFile × AftFile := fun np =>
        if (aft_seek_set wf f np.toNat).1 ≠ 0 then
          (-1, some (aft_seek_set wf f np.toNat).2.1, (aft_seek_set wf f np.toNat).2.2)
        else (0, some (aft_seek_set wf f np.toNat).2.1, (aft_seek_set wf f np.toNat).2.2)
      if whence = WAV_SEEK_SET then seekTo (dst + clipI byte_offset 0 dsz)
      else if whence = WAV_SEEK_CUR then
        seekTo (min (fpos - min (-byte_offset) (fpos - dst)) (dst + dsz))
      else if whence = WAV_SEEK_END then seekTo (dst + dsz - clipI byte_offset 0 dsz)
      else (-1, some wf, f)

/-- `wavfile_seek_time_ms` (wav.c lines 796-803): convert milliseconds to
samples (`int64_t` arithmetic, truncating division) and delegate. -/
def wavfile_seek_time_ms (wf? : Option WavFile) (f : AftFile) (offset : Int)
    (whence : Nat) : Int × Option WavFile × AftFile :=
  match wf? with
  | none => (-1, none, f)
  | some wf =>
    let samples : Int := Int.tdiv (offset * wf.sample_rate) 1000
    wavfile_seek_samples (some wf) f samples whence

/-- The `uint64_t` value `(uint64_t)(-1)` returned by the position queries on
error. -/
def UINT64_ERR : Nat := 18446744073709551615

/-- `wavfile_position` (wav.c lines 809-820): current stream position in
samples; `(uint64_t)(-1)` on a NULL handle or non-positive block alignment,
0 when no data chunk was recorded. -/
def wavfile_position (wf? : Option WavFile) : Nat :=
  match wf? with
  | none => UINT64_ERR
  | some wf =>
    if wf.block_align = 0 then UINT64_ERR
    else if wf.data_start = 0 ∨ wf.data_size = 0 then 0
    else u64sub wf.filepos wf.data_start / wf.block_align

/-- `wavfile_position_time_ms` (wav.c lines 826-830): returns
`wavfile_position(wf) * 1000 / wf->sample_rate` with *no* null check of its
own — on a NULL handle the inner call returns `(uint64_t)(-1)` but the
division then dereferences `wf->sample_rate`, which crashes (undefined
behavior), modelled as `none`.  (`wf->sample_rate == 0` would likewise be a
division by zero; for the non-null model Nat division by zero yields 0.) -/
def wavfile_position_time_ms (wf? : Option WavFile) : Option Nat :=
  match wf? with
  | none => none
  | some wf =>
    some (wavfile_position (some wf) * 1000 % 18446744073709551616 / wf.sample_rate)

/-- In-range predicate for a stored `U8` sample (offset-128 unsigned 8-bit). -/
abbrev inRangeU8 (v : Int) : Prop := 0 ≤ v ∧ v ≤ 255

/-- In-range predicate for a stored `S16` sample. -/
abbrev inRangeS16 (v : Int) : Prop := -32768 ≤ v ∧ v ≤ 32767

/-- In-range predicate for a stored `S20` sample. -/
abbrev inRangeS20 (v : Int) : Prop := -524288 ≤ v ∧ v ≤ 524287

/-- In-range predicate for a stored `S24` sample. -/
abbrev inRangeS24 (v : Int) : Prop := -8388608 ≤ v ∧ v ≤ 8388607

/-- In-range predicate for a stored `S32` sample. -/
abbrev inRangeS32 (v : Int) : Prop := -2147483648 ≤ v ∧ v ≤ 2147483647

/-- A handle whose `bps = block_align / channels = 8` while the container
format is PCM, with samples remaining: the dispatch of
`wavfile_read_samples` has no arm for this combination. -/
def wfC1 : WavFile :=
  { zeroWavFile with
    format := WAVE_FORMAT_PCM, channels := 1,
    sample_rate := 44100, block_align := 8, bit_width := 64,
    data_size := 16, samples := 2, read_format := .s16 }

/-- A 16-byte stream for `wfC1` (two 8-byte frames). -/
def fC1 : AftFile := ⟨List.replicate 16 0, 0⟩

/-- A handle with `bps = 2` and unknown source format, with samples
remaining: the `bps = 2` arm rejects it. -/
def wfC1w : WavFile :=
  { zeroWavFile with
    channels := 1, sample_rate := 44100, block_align := 2,
    bit_width := 12, data_size := 4, samples := 2 }

/-- A 4-byte stream for `wfC1w`. -/
def fC1w : AftFile := ⟨[0, 0, 0, 0], 0⟩

/-- A seekable handle positioned inside its data chunk, for exercising the
seek clamping. -/
def wfC6 : WavFile :=
  { zeroWavFile with
    seekable := true, block_align := 2, channels := 1,
    sample_rate := 8000, filepos := 14, data_start := 10, data_size := 20,
    samples := 10, file_size := 40 }

/-- A 40-byte stream for `wfC6`. -/
def fC6 : AftFile := ⟨List.replicate 40 0, 14⟩

/-- A non-seekable handle at tracked position 10. -/
def wfC7 : WavFile := { zeroWavFile with filepos := 10 }

/-- An exhausted dummy stream for `wfC7`. -/
def fC7 : AftFile := ⟨[], 0⟩

/-- A handle with `bps = 1` but source format `S16`: the `bps = 1` dispatch
arm rejects it after the raw bytes were consumed. -/
def wfC9 : WavFile :=
  { zeroWavFile with
    block_align := 1, channels := 1, sample_rate := 8000,
    source_format := .s16, data_size := 4, samples := 4 }

/-- A 4-byte stream for `wfC9`. -/
def fC9 : AftFile := ⟨[1, 2, 3, 4], 0⟩

/-- A non-seekable handle at tracked position 0. -/
def wfC10 : WavFile := zeroWavFile

/-- A 3-byte stream: shorter than the forward-seek destinations used with
it, so the emulated forward seek hits end-of-file early. -/
def fC10 : AftFile := ⟨[7, 7, 7], 0⟩

/-- A seekable handle at tracked position 0, used with a destination beyond
`INT32_MAX` to select the slow forward-emulation path on a seekable
stream. -/
def wfC10b : WavFile := { zeroWavFile with seekable := true }

/-- A complete 48-byte WAVE file: 16-byte `fmt ` chunk describing mono 8-bit
PCM at 44100 Hz, then a `data` chunk declaring 100 bytes while only 4 bytes
remain in the file. -/
def c5file : List Nat :=
  [82, 73, 70, 70, 36, 0, 0, 0, 87, 65, 86, 69,
   102, 109, 116, 32, 16, 0, 0, 0, 1, 0, 1, 0, 68, 172, 0, 0, 68, 172, 0, 0,
   1, 0, 8, 0,
   100, 97, 116, 97, 100, 0, 0, 0, 1, 2, 3, 4]

/-- The handle `wavfile_init` produces for `c5file`: the declared data size
100 is clamped to the 4 bytes actually remaining. -/
def c5wf : WavFile :=
  { seekable := true, filepos := 44, file_size := 48, format := 1,
    channels := 1, sample_rate := 44100, block_align := 1, bit_width := 8,
    ch_mask := 4, bytes_per_sec := 44100, source_format := .u8,
    read_format := .unknown, data_start := 44, data_size := 4, samples := 4 }

/-- The stream state `wavfile_init` leaves for `c5file`: positioned at the
first sample byte. -/
def c5fp : AftFile := ⟨c5file, 44⟩

lemma toU8_eq_self {x : Int} (h1 : 0 ≤ x) (h2 : x ≤ 255) : toU8 x = x := by
  unfold toU8; change x % 256 = x; omega

lemma wrap16_eq_self {x : Int} (h1 : -32768 ≤ x) (h2 : x ≤ 32767) : wrap16 x = x := by
  unfold wrap16; change (x + 32768) % 65536 - 32768 = x; omega

lemma wrap32_eq_self {x : Int} (h1 : -2147483648 ≤ x) (h2 : x ≤ 2147483647) :
    wrap32 x = x := by
  unfold wrap32; change (x + 2147483648) % 4294967296 - 2147483648 = x; omega

lemma ratTrunc_intCast (n : Int) : ratTrunc ((n : Rat)) = n := by
  unfold ratTrunc
  split_ifs with h
  · exact Int.floor_intCast n
  · exact Int.ceil_intCast n

lemma clipQ_bounds {q : Rat} {lo hi : Rat} (h : lo ≤ hi) :
    lo ≤ clipQ q lo hi ∧ clipQ q lo hi ≤ hi := by
  unfold clipQ
  exact ⟨le_max_left _ _, max_le h (min_le_right _ _)⟩

lemma ratTrunc_bounds {q : Rat} {lo hi : Int} (h1 : (lo : Rat) ≤ q) (h2 : q ≤ (hi : Rat)) :
    lo ≤ ratTrunc q ∧ ratTrunc q ≤ hi := by
  unfold ratTrunc
  split_ifs with h0
  · constructor
    · exact Int.le_floor.mpr h1
    · have := Int.floor_le_floor h2
      rwa [Int.floor_intCast] at this
  · constructor
    · have := Int.ceil_le_ceil h1
      rwa [Int.ceil_intCast] at this
    · exact Int.ceil_le.mpr h2

lemma ratTrunc_clip_u8 (x : Rat) :
    0 ≤ ratTrunc (clipQ (x * 128 + 128) 0 255) ∧
      ratTrunc (clipQ (x * 128 + 128) 0 255) ≤ 255 := by
  have h := @clipQ_bounds (x * 128 + 128) (0 : Rat) (255 : Rat) (by norm_num)
  exact @ratTrunc_bounds _ 0 255 (by exact_mod_cast h.1) (by exact_mod_cast h.2)

lemma ratTrunc_clip_s16 (x : Rat) :
    -32768 ≤ ratTrunc (clipQ (x * 32768) (-32768) 32767) ∧
      ratTrunc (clipQ (x * 32768) (-32768) 32767) ≤ 32767 := by
  have h := @clipQ_bounds (x * 32768) (-32768 : Rat) (32767 : Rat) (by norm_num)
  exact @ratTrunc_bounds _ (-32768) 32767 (by exact_mod_cast h.1) (by exact_mod_cast h.2)

lemma ratTrunc_clip_s20 (x : Rat) :
    -524288 ≤ ratTrunc (clipQ (x * 524288) (-524288) 524287) ∧
      ratTrunc (clipQ (x * 524288) (-524288) 524287) ≤ 524287 := by
  have h := @clipQ_bounds (x * 524288) (-524288 : Rat) (524287 : Rat) (by norm_num)
  exact @ratTrunc_bounds _ (-524288) 524287 (by exact_mod_cast h.1) (by exact_mod_cast h.2)

lemma ratTrunc_clip_s24 (x : Rat) :
    -8388608 ≤ ratTrunc (clipQ (x * 8388608) (-8388608) 8388607) ∧
      ratTrunc (clipQ (x * 8388608) (-8388608) 8388607) ≤ 8388607 := by
  have h := @clipQ_bounds (x * 8388608) (-8388608 : Rat) (8388607 : Rat) (by norm_num)
  exact @ratTrunc_bounds _ (-8388608) 8388607 (by exact_mod_cast h.1) (by exact_mod_cast h.2)

/-- C2: for floating-point sources (FLT or DBL), conversion to the integer
destinations U8, S16, S20 and S24 multiplies by the destination's full-scale
magnitude (around the 128 offset for the unsigned U8), clips to the
destination's representable range and only then truncates to integer — so
the result always lies in the representable range, with +1.0 → S16 = 32767
and -1.0 → S16 = -32768; conversion to S32 casts the scaled value with no
clipping, e.g. +2.0 → S32 wraps to 0 instead of saturating at 2147483647. -/
theorem wav_c2_float_to_int_clipping :
    (∀ (x : Rat) (d : List Int),
      (fmt_convert_to_u8 d .flt [x] = [ratTrunc (clipQ (x * 128 + 128) 0 255)] ∧
        fmt_convert_to_u8 d .dbl [x] = [ratTrunc (clipQ (x * 128 + 128) 0 255)] ∧
        0 ≤ ratTrunc (clipQ (x * 128 + 128) 0 255) ∧
        ratTrunc (clipQ (x * 128 + 128) 0 255) ≤ 255) ∧
      (fmt_convert_to_s16 d .flt [x] = [ratTrunc (clipQ (x * 32768) (-32768) 32767)] ∧
        fmt_convert_to_s16 d .dbl [x] = [ratTrunc (clipQ (x * 32768) (-32768) 32767)] ∧
        -32768 ≤ ratTrunc (clipQ (x * 32768) (-32768) 32767) ∧
        ratTrunc (clipQ (x * 32768) (-32768) 32767) ≤ 32767) ∧
      (fmt_convert_to_s20 d .flt [x] = [ratTrunc (clipQ (x * 524288) (-524288) 524287)] ∧
        fmt_convert_to_s20 d .dbl [x] = [ratTrunc (clipQ (x * 524288) (-524288) 524287)] ∧
        -524288 ≤ ratTrunc (clipQ (x * 524288) (-524288) 524287) ∧
        ratTrunc (clipQ (x * 524288) (-524288) 524287) ≤ 524287) ∧
      (fmt_convert_to_s24 d .flt [x] = [ratTrunc (clipQ (x * 8388608) (-8388608) 8388607)] ∧
        fmt_convert_to_s24 d .dbl [x] = [ratTrunc (clipQ (x * 8388608) (-8388608) 8388607)] ∧
        -8388608 ≤ ratTrunc (clipQ (x * 8388608) (-8388608) 8388607) ∧
        ratTrunc (clipQ (x * 8388608) (-8388608) 8388607) ≤ 8388607) ∧
      (fmt_convert_to_s32 d .flt [x] = [wrap32 (ratTrunc (x * 2147483648))] ∧
        fmt_convert_to_s32 d .dbl [x] = [wrap32 (ratTrunc (x * 2147483648))])) ∧
    fmt_convert_to_s16 [] .flt [(1 : Rat)] = [32767] ∧
    fmt_convert_to_s16 [] .flt [(-1 : Rat)] = [-32768] ∧
    fmt_convert_to_s32 [] .flt [(2 : Rat)] = [0] := by
  refine ⟨fun x d => ?_, ?_, ?_, ?_⟩
  · have hu8 := ratTrunc_clip_u8 x
    have hs16 := ratTrunc_clip_s16 x
    have hs20 := ratTrunc_clip_s20 x
    have hs24 := ratTrunc_clip_s24 x
    refine ⟨⟨?_, ?_, hu8.1, hu8.2⟩, ⟨?_, ?_, hs16.1, hs16.2⟩,
      ⟨?_, ?_, hs20.1, hs20.2⟩, ⟨?_, ?_, hs24.1, hs24.2⟩, rfl, rfl⟩
    · simp only [fmt_convert_to_u8, List.map_cons, List.map_nil]
      rw [toU8_eq_self hu8.1 hu8.2]
    · simp only [fmt_convert_to_u8, List.map_cons, List.map_nil]
      rw [toU8_eq_self hu8.1 hu8.2]
    · simp only [fmt_convert_to_s16, List.map_cons, List.map_nil]
      rw [wrap16_eq_self hs16.1 hs16.2]
    · simp only [fmt_convert_to_s16, List.map_cons, List.map_nil]
      rw [wrap16_eq_self hs16.1 hs16.2]
    · simp only [fmt_convert_to_s20, List.map_cons, List.map_nil]
      rw [wrap32_eq_self (by omega) (by omega)]
    · simp only [fmt_convert_to_s20, List.map_cons, List.map_nil]
      rw [wrap32_eq_self (by omega) (by omega)]
    · simp only [fmt_convert_to_s24, List.map_cons, List.map_nil]
      rw [wrap32_eq_self (by omega) (by omega)]
    · simp only [fmt_convert_to_s24, List.map_cons, List.map_nil]
      rw [wrap32_eq_self (by omega) (by omega)]
  · simp only [fmt_convert_to_s16, List.map_cons, List.map_nil]
    have h : clipQ ((1 : Rat) * 32768) (-32768) 32767 = ((32767 : Int) : Rat) := by
      unfold clipQ; norm_num [min_def, max_def]
    rw [h, ratTrunc_intCast]; decide
  · simp only [fmt_convert_to_s16, List.map_cons, List.map_nil]
    have h : clipQ ((-1 : Rat) * 32768) (-32768) 32767 = ((-32768 : Int) : Rat) := by
      unfold clipQ; norm_num [min_def, max_def]
    rw [h, ratTrunc_intCast]; decide
  · simp only [fmt_convert_to_s32, List.map_cons, List.map_nil]
    have h : (2 : Rat) * 2147483648 = ((4294967296 : Int) : Rat) := by norm_num
    rw [h, ratTrunc_intCast]; decide

/-- C3: for each of the seven sample representations, converting a buffer
from the format to itself copies the input verbatim. -/
theorem wav_c3_identity_conversion :
    (∀ d s : List Int, fmt_convert .u8 d .u8 s = s) ∧
    (∀ d s : List Int, fmt_convert .s16 d .s16 s = s) ∧
    (∀ d s : List Int, fmt_convert .s20 d .s20 s = s) ∧
    (∀ d s : List Int, fmt_convert .s24 d .s24 s = s) ∧
    (∀ d s : List Int, fmt_convert .s32 d .s32 s = s) ∧
    (∀ d s : List Rat, fmt_convert .flt d .flt s = s) ∧
    (∀ d s : List Rat, fmt_convert .dbl d .dbl s = s) :=
  ⟨fun _ _ => rfl, fun _ _ => rfl, fun _ _ => rfl, fun _ _ => rfl,
   fun _ _ => rfl, fun _ _ => rfl, fun _ _ => rfl⟩

lemma int_ediv_eq (a b : Int) : a.ediv b = a / b := rfl

lemma int_emod_eq (a b : Int) : a.emod b = a % b := rfl

lemma map_self_of_mem {α : Type} {f : α → α} :
    ∀ {l : List α}, (∀ v ∈ l, f v = v) → l.map f = l := by
  intro l h
  induction l with
  | nil => rfl
  | cons a t ih =>
    simp only [List.map_cons]
    rw [h a (List.mem_cons_self a t), ih fun v hv => h v (List.mem_cons_of_mem a hv)]

/-- C4: converting a buffer of in-range samples from an integer format to an
integer format at least as wide and back recovers the original buffer, for
all fifteen ordered pairs of the five integer formats. -/
theorem wav_c4_widen_narrow_roundtrip :
    (∀ (buf d1 d2 : List Int), (∀ v ∈ buf, inRangeU8 v) →
      fmt_convert .u8 d2 .u8 (fmt_convert .u8 d1 .u8 buf) = buf) ∧
    (∀ (buf d1 d2 : List Int), (∀ v ∈ buf, inRangeU8 v) →
      fmt_convert .u8 d2 .s16 (fmt_convert .s16 d1 .u8 buf) = buf) ∧
    (∀ (buf d1 d2 : List Int), (∀ v ∈ buf, inRangeU8 v) →
      fmt_convert .u8 d2 .s20 (fmt_convert .s20 d1 .u8 buf) = buf) ∧
    (∀ (buf d1 d2 : List Int), (∀ v ∈ buf, inRangeU8 v) →
      fmt_convert .u8 d2 .s24 (fmt_convert .s24 d1 .u8 buf) = buf) ∧
    (∀ (buf d1 d2 : List Int), (∀ v ∈ buf, inRangeU8 v) →
      fmt_convert .u8 d2 .s32 (fmt_convert .s32 d1 .u8 buf) = buf) ∧
    (∀ (buf d1 d2 : List Int), (∀ v ∈ buf, inRangeS16 v) →
      fmt_convert .s16 d2 .s16 (fmt_convert .s16 d1 .s16 buf) = buf) ∧
    (∀ (buf d1 d2 : List Int), (∀ v ∈ buf, inRangeS16 v) →
      fmt_convert .s16 d2 .s20 (fmt_convert .s20 d1 .s16 buf) = buf) ∧
    (∀ (buf d1 d2 : List Int), (∀ v ∈ buf, inRangeS16 v) →
      fmt_convert .s16 d2 .s24 (fmt_convert .s24 d1 .s16 buf) = buf) ∧
    (∀ (buf d1 d2 : List Int), (∀ v ∈ buf, inRangeS16 v) →
      fmt_convert .s16 d2 .s32 (fmt_convert .s32 d1 .s16 buf) = buf) ∧
    (∀ (buf d1 d2 : List Int), (∀ v ∈ buf, inRangeS20 v) →
      fmt_convert .s20 d2 .s20 (fmt_convert .s20 d1 .s20 buf) = buf) ∧
    (∀ (buf d1 d2 : List Int), (∀ v ∈ buf, inRangeS20 v) →
      fmt_convert .s20 d2 .s24 (fmt_convert .s24 d1 .s20 buf) = buf) ∧
    (∀ (buf d1 d2 : List Int), (∀ v ∈ buf, inRangeS20 v) →
      fmt_convert .s20 d2 .s32 (fmt_convert .s32 d1 .s20 buf) = buf) ∧
    (∀ (buf d1 d2 : List Int), (∀ v ∈ buf, inRangeS24 v) →
      fmt_convert .s24 d2 .s24 (fmt_convert .s24 d1 .s24 buf) = buf) ∧
    (∀ (buf d1 d2 : List Int), (∀ v ∈ buf, inRangeS24 v) →
      fmt_convert .s24 d2 .s32 (fmt_convert .s32 d1 .s24 buf) = buf) ∧
    (∀ (buf d1 d2 : List Int), (∀ v ∈ buf, inRangeS32 v) →
      fmt_convert .s32 d2 .s32 (fmt_convert .s32 d1 .s32 buf) = buf) := by
  refine ⟨fun _ _ _ _ => rfl, ?_, ?_, ?_, ?_, fun _ _ _ _ => rfl, ?_, ?_, ?_,
    fun _ _ _ _ => rfl, ?_, ?_, fun _ _ _ _ => rfl, ?_, fun _ _ _ _ => rfl⟩ <;>
  · intro buf d1 d2 h
    simp only [fmt_convert, fmt_convert_to_u8, fmt_convert_to_s16, fmt_convert_to_s20,
      fmt_convert_to_s24, fmt_convert_to_s32, List.map_map]
    apply map_self_of_mem
    intro v hv
    have hr := h v hv
    simp only [Function.comp_apply]
    simp only [toU8, wrap16, wrap32, int_ediv_eq, int_emod_eq]
    omega

/-- C4 witness: a concrete S16 buffer containing both extremes survives the
S16 → S24 → S16 round trip. -/
theorem wav_c4_witness :
    fmt_convert .s16 [] .s24 (fmt_convert .s24 [] .s16 ([-32768, 1234, 32767] : List Int)) =
      ([-32768, 1234, 32767] : List Int) :=
  wav_c4_widen_narrow_roundtrip.2.2.2.2.2.2.2.1 ([-32768, 1234, 32767] : List Int) [] []
    (by decide)

lemma aft_seek_set_cases (wf : WavFile) (f : AftFile) (dest : Nat) :
    (∃ p, aft_seek_set wf f dest = (0, { wf with filepos := dest }, { f with pos := p })) ∨
    aft_seek_set wf f dest = (-1, wf, f) := by
  simp only [aft_seek_set, aftSlowSeek]
  split_ifs <;> first
    | exact .inr rfl
    | exact .inl ⟨_, rfl⟩

/-- C7: whenever `aft_seek_set` fails (returns -1) the tracked file-position
counter is left unchanged; the counter is assigned the destination exactly
on every successful (0) return. -/
theorem wav_c7_seek_failure_keeps_filepos (wf : WavFile) (f : AftFile) (dest : Nat) :
    ((aft_seek_set wf f dest).1 ≠ 0 → (aft_seek_set wf f dest).2.1.filepos = wf.filepos) ∧
    ((aft_seek_set wf f dest).1 = 0 → (aft_seek_set wf f dest).2.1.filepos = dest) := by
  rcases aft_seek_set_cases wf f dest with ⟨p, h⟩ | h
  · rw [h]
    exact ⟨fun hr => absurd rfl hr, fun _ => rfl⟩
  · rw [h]
    refine ⟨fun _ => rfl, fun hr => ?_⟩
    simp at hr

/-- C7 witness: on the non-seekable handle `wfC7` (tracked position 10), the
backward seek to 5 fails leaving the position at 10, while the forward seek
to 12 succeeds and sets it to 12. -/
theorem wav_c7_witness :
    (aft_seek_set wfC7 fC7 5).2.1.filepos = 10 ∧
    (aft_seek_set wfC7 fC7 12).2.1.filepos = 12 :=
  ⟨(wav_c7_seek_failure_keeps_filepos wfC7 fC7 5).1 (by decide),
   (wav_c7_seek_failure_keeps_filepos wfC7 fC7 12).2 (by decide)⟩

/-- C10: the forward-only emulated seek — on a non-seekable stream, or on a
seekable stream whose destination lies beyond `INT32_MAX` both absolutely
and relatively — returns success and sets the tracked position to the
destination exactly, even when the underlying stream runs out of bytes
before the destination (the stream position stops at end-of-file, but no
error is reported). -/
theorem wav_c10_forward_emulated_seek (wf : WavFile) (f : AftFile) (dest : Nat) :
    (wf.seekable = false → wf.filepos ≤ dest →
      (aft_seek_set wf f dest).1 = 0 ∧
      (aft_seek_set wf f dest).2.1.filepos = dest ∧
      (aft_seek_set wf f dest).2.2.pos =
        max (min (f.pos + (dest - wf.filepos)) f.data.length) f.pos) ∧
    (wf.seekable = true → 2147483647 < (dest : Int) →
      2147483647 < (dest : Int) - (wf.filepos : Int) →
      (aft_seek_set wf f dest).1 = 0 ∧
      (aft_seek_set wf f dest).2.1.filepos = dest) := by
  constructor
  · intro hs hle
    simp only [aft_seek_set, aftSlowSeek, hs, Bool.false_eq_true, if_false]
    rw [if_neg (by omega)]
    exact ⟨rfl, rfl, rfl⟩
  · intro hs h1 h2
    simp only [aft_seek_set, aftSlowSeek, hs, if_true, INT32_MAX, INT32_MIN]
    rw [if_neg (by omega), if_neg (by omega), if_neg (by omega), if_neg (by omega)]
    exact ⟨rfl, rfl⟩

/-- C10 witness: skipping forward to byte 10 of the 3-byte non-seekable
stream `fC10` consumes everything (stream position stops at 3), yet returns
success with the tracked position set to 10; the far-forward emulation on
the seekable `wfC10b` likewise succeeds exactly. -/
theorem wav_c10_witness :
    (aft_seek_set wfC10 fC10 10).1 = 0 ∧
    (aft_seek_set wfC10 fC10 10).2.1.filepos = 10 ∧
    (aft_seek_set wfC10 fC10 10).2.2.pos = 3 ∧
    (aft_seek_set wfC10b fC10 2147483650).1 = 0 ∧
    (aft_seek_set wfC10b fC10 2147483650).2.1.filepos = 2147483650 := by
  have h1 := (wav_c10_forward_emulated_seek wfC10 fC10 10).1 rfl (by decide)
  have h2 := (wav_c10_forward_emulated_seek wfC10b fC10 2147483650).2 rfl
    (by decide) (by decide)
  exact ⟨h1.1, h1.2.1, by decide, h2.1, h2.2⟩

lemma seek_result_filepos (wf : WavFile) (f : AftFile) (t : Nat) (wf1 : WavFile)
    (h : (if (aft_seek_set wf f t).1 ≠ 0 then
            ((-1 : Int), some (aft_seek_set wf f t).2.1, (aft_seek_set wf f t).2.2)
          else ((0 : Int), some (aft_seek_set wf f t).2.1, (aft_seek_set wf f t).2.2)).2.1 =
        some wf1) :
    wf1.filepos = t ∨ wf1 = wf := by
  rcases aft_seek_set_cases wf f t with ⟨p, hs⟩ | hs <;> rw [hs] at h <;> simp at h
  · left; rw [← h]
  · right; rw [← h]

/-- C6: with positive block alignment and the tracked position inside the
data chunk, every `wavfile_seek_samples` call (SET, CUR, END or invalid
whence, success or failure) leaves the tracked cursor within
`[data_start, data_start + data_size]`: the destination is clamped into that
interval before seeking, and a failed seek leaves the cursor untouched. -/
theorem wav_c6_seek_clamped (wf : WavFile) (f : AftFile) (offset : Int) (whence : Nat)
    (hba : 0 < wf.block_align) (hlo : wf.data_start ≤ wf.filepos)
    (hhi : wf.filepos ≤ wf.data_start + wf.data_size) :
    ∀ wf1, (wavfile_seek_samples (some wf) f offset whence).2.1 = some wf1 →
      wf.data_start ≤ wf1.filepos ∧ wf1.filepos ≤ wf.data_start + wf.data_size := by
  intro wf1 h
  simp only [wavfile_seek_samples] at h
  rw [if_neg (by omega), if_neg (by omega)] at h
  by_cases hdz : wf.data_size = 0
  · rw [if_pos hdz] at h
    simp only [Option.some.injEq] at h
    subst h
    omega
  · rw [if_neg hdz] at h
    by_cases hw1 : whence = WAV_SEEK_SET
    · rw [if_pos hw1] at h
      have hcb : (0 : Int) ≤ clipI (offset * (wf.block_align : Int)) 0 (wf.data_size : Int) ∧
          clipI (offset * (wf.block_align : Int)) 0 (wf.data_size : Int) ≤
            (wf.data_size : Int) := by
        simp only [clipI]; omega
      have h0 : (0 : Int) ≤ (wf.data_start : Int) +
          clipI (offset * (wf.block_align : Int)) 0 (wf.data_size : Int) := by omega
      have htt := Int.toNat_of_nonneg h0
      rcases seek_result_filepos _ _ _ _ h with hh | hh
      · rw [hh]; omega
      · subst hh; omega
    · rw [if_neg hw1] at h
      by_cases hw2 : whence = WAV_SEEK_CUR
      · rw [if_pos hw2] at h
        have h0 : (0 : Int) ≤ min ((wf.filepos : Int) -
            min (-(offset * (wf.block_align : Int)))
              ((wf.filepos : Int) - (wf.data_start : Int)))
            ((wf.data_start : Int) + (wf.data_size : Int)) := by omega
        have htt := Int.toNat_of_nonneg h0
        rcases seek_result_filepos _ _ _ _ h with hh | hh
        · rw [hh]; omega
        · subst hh; omega
      · rw [if_neg hw2] at h
        by_cases hw3 : whence = WAV_SEEK_END
        · rw [if_pos hw3] at h
          have hcb : (0 : Int) ≤ clipI (offset * (wf.block_align : Int)) 0 (wf.data_size : Int) ∧
              clipI (offset * (wf.block_align : Int)) 0 (wf.data_size : Int) ≤
                (wf.data_size : Int) := by
            simp only [clipI]; omega
          have h0 : (0 : Int) ≤ (wf.data_start : Int) + (wf.data_size : Int) -
              clipI (offset * (wf.block_align : Int)) 0 (wf.data_size : Int) := by omega
          have htt := Int.toNat_of_nonneg h0
          rcases seek_result_filepos _ _ _ _ h with hh | hh
          · rw [hh]; omega
          · subst hh; omega
        · rw [if_neg hw3] at h
          simp only [Option.some.injEq] at h
          subst h
          omega

/-- C6 witness: on `wfC6` (data chunk `[10, 30]`, cursor 14), seeking 9
samples backward from the current position is clamped to `data_start`,
leaving the cursor at 10, inside the chunk. -/
theorem wav_c6_witness :
    wfC6.data_start ≤ ({ wfC6 with filepos := 10 } : WavFile).filepos ∧
      ({ wfC6 with filepos := 10 } : WavFile).filepos ≤
        wfC6.data_start + wfC6.data_size :=
  wav_c6_seek_clamped wfC6 fC6 (-9) WAV_SEEK_CUR (by decide) (by decide) (by decide)
    { wfC6 with filepos := 10 } (by decide)

/-- C8 counterexample: `wavfile_position_time_ms` does *not* return an error
value on a NULL handle — after `wavfile_position`'s internal check returns,
the function still divides by `wf->sample_rate` through the NULL pointer,
modelled as `none` (a crash), so no error value is ever produced. -/
theorem wav_c8_counterexample : wavfile_position_time_ms none = none := rfl

/-- C8 (amended): `wavfile_init`, `wavfile_read_samples`,
`wavfile_seek_samples`, `wavfile_seek_time_ms` and `wavfile_position` each
reject a null handle (and, where applicable, a null output buffer or
non-positive block alignment) up front with an error value and untouched
state; `wavfile_position_time_ms` alone performs no null check of its own
(see the counterexample). -/
theorem wav_c8_null_checks :
    (∀ (fp? : Option AftFile) (s : Bool), wavfile_init true fp? s = none) ∧
    (∀ s : Bool, wavfile_init false none s = none) ∧
    (∀ (f : AftFile) (n : Int),
      (wavfile_read_samples none f false n).1 = -1 ∧
      (wavfile_read_samples none f false n).2.1 = none ∧
      (wavfile_read_samples none f false n).2.2.1 = f) ∧
    (∀ (wf : WavFile) (f : AftFile) (n : Int),
      (wavfile_read_samples (some wf) f true n).1 = -1) ∧
    (∀ (wf : WavFile) (f : AftFile) (n : Int),
      (wavfile_read_samples (some { wf with block_align := 0 }) f false n).1 = -1) ∧
    (∀ (f : AftFile) (offset : Int) (whence : Nat),
      (wavfile_seek_samples none f offset whence).1 = -1 ∧
      (wavfile_seek_samples none f offset whence).2.1 = none ∧
      (wavfile_seek_samples none f offset whence).2.2 = f) ∧
    (∀ (wf : WavFile) (f : AftFile) (offset : Int) (whence : Nat),
      (wavfile_seek_samples (some { wf with block_align := 0 }) f offset whence).1 = -1) ∧
    (∀ (f : AftFile) (offset : Int) (whence : Nat),
      (wavfile_seek_time_ms none f offset whence).1 = -1) ∧
    wavfile_position none = UINT64_ERR ∧
    (∀ wf : WavFile, wavfile_position (some { wf with block_align := 0 }) = UINT64_ERR) := by
  refine ⟨fun _ _ => rfl, fun _ => rfl, fun _ _ => ⟨rfl, rfl, rfl⟩, fun _ _ _ => rfl,
    fun wf f n => ?_, fun _ _ _ => ⟨rfl, rfl, rfl⟩, fun wf f o w => ?_,
    fun _ _ _ => rfl, rfl, fun wf => ?_⟩
  · simp [wavfile_read_samples]
  · simp [wavfile_seek_samples]
  · simp [wavfile_position]

/-- C1 (amended): with samples remaining, a read on a handle whose
`source_format` is unknown returns -1 whenever bytes-per-sample
(`block_align / channels`) is 1, 2, 3 or 4, or is 8 with the IEEE-float
container; but for every *other* bytes-per-sample value (0, 5, 6, 7, ≥ 9,
or 8 with a non-float container) the dispatch has no arm at all and the
function instead returns the number of frames read, converting nothing. -/
theorem wav_c1_unknown_format_read (wf : WavFile) (f : AftFile) (n : Int)
    (hba : ¬wf.block_align = 0) (hns : ¬(readClampPair wf n).2 ≤ 0) :
    (wf.source_format = .unknown →
      (wf.block_align / wf.channels = 1 ∨ wf.block_align / wf.channels = 2 ∨
        wf.block_align / wf.channels = 3 ∨ wf.block_align / wf.channels = 4 ∨
        (wf.format = WAVE_FORMAT_IEEEFLOAT ∧ wf.block_align / wf.channels = 8)) →
      (wavfile_read_samples (some wf) f false n).1 = -1) ∧
    ((¬wf.block_align / wf.channels = 1 ∧ ¬wf.block_align / wf.channels = 2 ∧
      ¬wf.block_align / wf.channels = 3 ∧ ¬wf.block_align / wf.channels = 4 ∧
      ¬(wf.format = WAVE_FORMAT_IEEEFLOAT ∧ wf.block_align / wf.channels = 8)) →
      (wavfile_read_samples (some wf) f false n).1 =
        ((readNrOf wf f (readClampPair wf n).2 : Nat) : Int) ∧
      (wavfile_read_samples (some wf) f false n).2.2.2 = false) := by
  constructor
  · intro hsf hbps
    simp only [wavfile_read_samples, Bool.false_eq_true, if_false]
    rw [if_neg hba, if_neg hns]
    rcases hbps with h1 | h2 | h3 | h4 | ⟨hf, h8⟩
    · rw [if_pos h1]
      simp [hsf]
    · rw [if_neg (by omega), if_pos h2]
      simp [hsf]
    · rw [if_neg (by omega), if_neg (by omega), if_pos h3]
      simp [hsf]
    · rw [if_neg (by omega), if_neg (by omega), if_neg (by omega), if_pos h4]
      split_ifs <;> simp_all
    · rw [if_neg (by omega), if_neg (by omega), if_neg (by omega), if_neg (by omega),
        if_pos ⟨hf, h8⟩]
      simp [hsf]
  · intro hb
    simp only [wavfile_read_samples, Bool.false_eq_true, if_false]
    rw [if_neg hba, if_neg hns, if_neg hb.1, if_neg hb.2.1, if_neg hb.2.2.1,
      if_neg hb.2.2.2.1, if_neg hb.2.2.2.2]
    exact ⟨rfl, rfl⟩

/-- C1 counterexample: `wfC1` has an unknown source format, bytes-per-sample
8 with a PCM (non-float) container — a combination with no unpacking rule —
and two frames remaining, yet `wavfile_read_samples` returns 2 (the frame
count), not -1, and performs no conversion. -/
theorem wav_c1_counterexample :
    wfC1.source_format = .unknown ∧
    wfC1.block_align / wfC1.channels = 8 ∧
    ¬wfC1.format = WAVE_FORMAT_IEEEFLOAT ∧
    wfC1.filepos < wfC1.data_start + wfC1.data_size ∧
    (wavfile_read_samples (some wfC1) fC1 false 2).1 = 2 ∧
    (wavfile_read_samples (some wfC1) fC1 false 2).2.2.2 = false := by
  decide

/-- C1 witness: `wfC1w` (unknown source format, bytes-per-sample 2, two
frames remaining) is rejected with -1 by the amended claim's covered
dispatch arms. -/
theorem wav_c1_witness : (wavfile_read_samples (some wfC1w) fC1w false 2).1 = -1 :=
  (wav_c1_unknown_format_read wfC1w fC1w 2 (by decide) (by decide)).1 rfl
    (Or.inr (Or.inl (by decide)))

/-- C9: when `wavfile_read_samples` fails with -1 out of the
bytes-per-sample dispatch (the only -1 source once the null/alignment
checks pass), the handle's tracked position has already been advanced by
the raw bytes consumed, `nr * block_align` — a failed read is not atomic
with respect to the tracked position. -/
theorem wav_c9_failed_read_advances_filepos (wf : WavFile) (f : AftFile) (n : Int)
    (hba : ¬wf.block_align = 0)
    (hret : (wavfile_read_samples (some wf) f false n).1 = -1) :
    (wavfile_read_samples (some wf) f false n).2.1 =
      some { wf with
        filepos := wf.filepos + readNrOf wf f (readClampPair wf n).2 * wf.block_align } := by
  simp only [wavfile_read_samples, Bool.false_eq_true, if_false] at hret ⊢
  rw [if_neg hba] at hret ⊢
  by_cases hns : (readClampPair wf n).2 ≤ 0
  · rw [if_pos hns] at hret
    simp at hret
  · rw [if_neg hns] at hret ⊢
    split_ifs at hret ⊢ <;> rfl

/-- C9 witness: reading 4 frames from `wfC9` (bytes-per-sample 1, source
format S16) fails with -1, and the tracked position has moved from 0 to 4
(= nr * block_align). -/
theorem wav_c9_witness :
    (wavfile_read_samples (some wfC9) fC9 false 4).2.1 =
      some { wfC9 with filepos := 4 } :=
  wav_c9_failed_read_advances_filepos wfC9 fC9 4 (by decide) (by decide)

lemma read4le_state (f : AftFile) :
    (read4le f).2.data = f.data ∧
    ((f.pos + 4 ≤ f.data.length ∧ (read4le f).2.pos = f.pos + 4) ∨
      ((read4le f).1 = 0 ∧ f.data.length ≤ (read4le f).2.pos ∧ f.pos ≤ (read4le f).2.pos)) := by
  unfold read4le
  split_ifs with h
  · exact ⟨rfl, .inl ⟨h, rfl⟩⟩
  · exact ⟨rfl, .inr ⟨rfl, le_max_right _ _, le_max_left _ _⟩⟩

lemma read2le_state (f : AftFile) :
    (read2le f).2.data = f.data ∧
    ((f.pos + 2 ≤ f.data.length ∧ (read2le f).2.pos = f.pos + 2) ∨
      ((read2le f).1 = 0 ∧ f.data.length ≤ (read2le f).2.pos ∧ f.pos ≤ (read2le f).2.pos)) := by
  unfold read2le
  split_ifs with h
  · exact ⟨rfl, .inl ⟨h, rfl⟩⟩
  · exact ⟨rfl, .inr ⟨rfl, le_max_right _ _, le_max_left _ _⟩⟩

lemma posInv_read4 {k : Nat} {f : AftFile} (h : k = f.pos ∨ f.data.length ≤ f.pos) :
    k + 4 = (read4le f).2.pos ∨ (read4le f).2.data.length ≤ (read4le f).2.pos := by
  have hd := (read4le_state f).1
  rcases (read4le_state f).2 with ⟨hle, hp⟩ | ⟨_, hp, _⟩
  · rcases h with h | h
    · left; omega
    · exact absurd hle (by omega)
  · right; rw [hd]; exact hp

lemma posInv_read2 {k : Nat} {f : AftFile} (h : k = f.pos ∨ f.data.length ≤ f.pos) :
    k + 2 = (read2le f).2.pos ∨ (read2le f).2.data.length ≤ (read2le f).2.pos := by
  have hd := (read2le_state f).1
  rcases (read2le_state f).2 with ⟨hle, hp⟩ | ⟨_, hp, _⟩
  · rcases h with h | h
    · left; omega
    · exact absurd hle (by omega)
  · right; rw [hd]; exact hp

lemma read4le_success {f : AftFile} (h : (read4le f).1 ≠ 0) :
    f.pos + 4 ≤ f.data.length ∧ (read4le f).2.pos = f.pos + 4 ∧
      (read4le f).2.data = f.data := by
  have hd := (read4le_state f).1
  rcases (read4le_state f).2 with ⟨hle, hp⟩ | ⟨h0, _, _⟩
  · exact ⟨hle, hp, hd⟩
  · exact absurd h0 h

lemma u64sub_eq {a b : Nat} (h1 : b ≤ a) (h2 : a < 18446744073709551616) :
    u64sub a b = a - b := by
  unfold u64sub; omega

lemma aft_seek_set_success_inv (wf : WavFile) (f : AftFile) (dest : Nat)
    (hr : (aft_seek_set wf f dest).1 = 0)
    (hle : wf.filepos ≤ dest) (hI : wf.filepos = f.pos ∨ f.data.length ≤ f.pos) :
    (aft_seek_set wf f dest).2.1 = { wf with filepos := dest } ∧
    (aft_seek_set wf f dest).2.2.data = f.data ∧
    (dest = (aft_seek_set wf f dest).2.2.pos ∨
      (aft_seek_set wf f dest).2.2.data.length ≤ (aft_seek_set wf f dest).2.2.pos) := by
  simp only [aft_seek_set, aftSlowSeek] at hr ⊢
  split_ifs at hr ⊢ <;>
    first
      | exact absurd hr (by omega)
      | (refine ⟨rfl, rfl, ?_⟩
         simp only []
         first
           | (left; trivial)
           | (rcases hI with h | h <;> omega))

lemma seekSkip_some {s : Int × WavFile × AftFile} {w : WavFile} {fp : AftFile}
    (h : seekSkip s = some (w, fp)) :
    s.1 = 0 ∧ s.2.1 = w ∧ s.2.2 = fp := by
  unfold seekSkip at h
  split_ifs at h with hr
  have hp := Option.some.inj h
  exact ⟨not_not.mp hr, congrArg Prod.fst hp, congrArg Prod.snd hp⟩

set_option maxHeartbeats 1000000 in
lemma chunkFmt_state (wf : WavFile) (fp : AftFile) (cs : Nat) (wf1 : WavFile) (f1 : AftFile)
    (hI : wf.filepos = fp.pos ∨ fp.data.length ≤ fp.pos)
    (h : chunkFmt wf fp cs = some (wf1, f1)) :
    wf1.seekable = wf.seekable ∧ wf1.file_size = wf.file_size ∧ f1.data = fp.data ∧
    (wf1.filepos = f1.pos ∨ f1.data.length ≤ f1.pos) := by
  have hd2 : ∀ f : AftFile, (read2le f).2.data = f.data := fun f => (read2le_state f).1
  have hd4 : ∀ f : AftFile, (read4le f).2.data = f.data := fun f => (read4le_state f).1
  have i1 := posInv_read2 hI
  have i2 := posInv_read2 i1
  have i3 := posInv_read4 i2
  have i4 := posInv_read4 i3
  have i5 := posInv_read2 i4
  have i6 := posInv_read2 i5
  have i7 := posInv_read4 i6
  have i8 := posInv_read4 i7
  have i9 := posInv_read2 i8
  simp only [chunkFmt] at h
  split_ifs at h with hcs hch hsr hbw hext hfmt hfmt2
  all_goals (
    obtain ⟨hr, hw, hf⟩ := seekSkip_some h
    subst hw
    subst hf
    first
      | (have hcheck := hext.1
         have hs := aft_seek_set_success_inv _ _ _ hr (Nat.le_add_right _ _) i9
         exact ⟨by rw [hs.1], by rw [hs.1], by rw [hs.2.1]; simp only [hd2, hd4],
           by rw [hs.1]; exact hs.2.2⟩)
      | (have hs := aft_seek_set_success_inv _ _ _ hr (Nat.le_add_right _ _) i6
         exact ⟨by rw [hs.1], by rw [hs.1], by rw [hs.2.1]; simp only [hd2, hd4],
           by rw [hs.1]; exact hs.2.2⟩))

lemma read2le_data (f : AftFile) : (read2le f).2.data = f.data := (read2le_state f).1

lemma read4le_data (f : AftFile) : (read4le f).2.data = f.data := (read4le_state f).1

lemma clampDataSize_bound {seekable : Bool} {fs ds v : Nat} (h1 : seekable = true)
    (h2 : 0 < fs) (h3 : ds ≤ fs) (h4 : fs < 18446744073709551616) :
    clampDataSize seekable fs ds v ≤ fs - ds := by
  unfold clampDataSize u64sub
  rw [if_pos ⟨h1, h2⟩]
  omega

set_option maxHeartbeats 1000000 in
lemma parseChunks_sound : ∀ (fuel : Nat) (wf : WavFile) (f : AftFile) (ff : Bool)
    (wf1 : WavFile) (f1 : AftFile),
    parseChunks fuel wf f ff = some (wf1, f1) →
    wf.seekable = true →
    wf.file_size = f.data.length →
    f.data.length < 18446744073709551616 →
    (wf.filepos = f.pos ∨ f.data.length ≤ f.pos) →
    wf1.data_start + wf1.data_size ≤ f.data.length ∧
    wf1.samples = wf1.data_size / wf1.block_align := by
  intro fuel
  induction fuel with
  | zero =>
    intro wf f ff wf1 f1 h _ _ _ _
    exact Option.noConfusion h
  | succ n ih =>
    intro wf f ff wf1 f1 h hsk hfs hlen hinv
    have j1 := posInv_read4 hinv
    have j2 := posInv_read4 j1
    rw [parseChunks] at h
    split_ifs at h with h1 h2 h3 h4
    · -- fmt chunk
      rcases hcf : chunkFmt { wf with filepos := wf.filepos + 4 + 4 }
          (read4le (read4le f).2).2 (read4le (read4le f).2).1 with _ | ⟨wfm, fpm⟩
      · rw [hcf] at h
        exact Option.noConfusion h
      · rw [hcf] at h
        have hst := chunkFmt_state _ _ _ _ _ j2 hcf
        have hrec := ih wfm fpm true wf1 f1 h
          (by rw [hst.1]; exact hsk)
          (by rw [hst.2.1, hst.2.2.1]; simp only [read2le_data, read4le_data]; exact hfs)
          (by rw [hst.2.2.1]; simp only [read2le_data, read4le_data]; exact hlen)
          hst.2.2.2
        rw [hst.2.2.1] at hrec
        simp only [read2le_data, read4le_data] at hrec
        exact hrec
    · -- data chunk
      have hid : (read4le f).1 ≠ 0 := fun hz => h1 (Or.inl hz)
      have hcs2 : (read4le (read4le f).2).1 ≠ 0 := fun hz => h1 (Or.inr hz)
      obtain ⟨hb1, hp1, hd1⟩ := read4le_success hid
      obtain ⟨hb2, hp2, hd2⟩ := read4le_success hcs2
      have hpos : wf.filepos = f.pos := by
        rcases hinv with hh | hh
        · exact hh
        · exact absurd hb1 (by omega)
      have hp8 : f.pos + 8 ≤ f.data.length := by
        rw [hd1, hp1] at hb2
        omega
      have hp := Option.some.inj h
      have hw := congrArg Prod.fst hp
      have hf := congrArg Prod.snd hp
      simp only [] at hw hf
      subst hw
      subst hf
      refine ⟨?_, rfl⟩
      have hcb := @clampDataSize_bound wf.seekable wf.file_size
        (wf.filepos + 4 + 4) ((read4le (read4le f).2).1)
        hsk (by omega) (by omega) (by omega)
      simp only []
      omega
    · -- unknown chunk: skip and recurse
      rcases hss : seekSkip (aft_seek_set { wf with filepos := wf.filepos + 4 + 4 }
          (read4le (read4le f).2).2 (wf.filepos + 4 + 4 + (read4le (read4le f).2).1)) with
        _ | ⟨wfm, fpm⟩
      · rw [hss] at h
        exact Option.noConfusion h
      · rw [hss] at h
        obtain ⟨hr0, hw2, hf2⟩ := seekSkip_some hss
        have hs := aft_seek_set_success_inv _ _ _ hr0 (Nat.le_add_right _ _) j2
        rw [hw2, hf2] at hs
        have hrec := ih wfm fpm ff wf1 f1 h
          (by rw [hs.1]; exact hsk)
          (by rw [hs.1, hs.2.1]; simp only [read2le_data, read4le_data]; exact hfs)
          (by rw [hs.2.1]; simp only [read2le_data, read4le_data]; exact hlen)
          (by rw [hs.1]; exact hs.2.2)
        rw [hs.2.1] at hrec
        simp only [read2le_data, read4le_data] at hrec
        exact hrec

lemma initFormats_some {r : Option (WavFile × AftFile)} {w : WavFile} {f1 : AftFile}
    (h : initFormats r = some (w, f1)) :
    ∃ wfp, r = some (wfp, f1) ∧
      w = { wfp with source_format := sourceFormatOf wfp.format wfp.bit_width,
                     read_format := .unknown } := by
  match r with
  | none => exact Option.noConfusion h
  | some (wfp, fp) =>
    simp only [initFormats] at h
    have hp := Option.some.inj h
    have h1 := congrArg Prod.fst hp
    have h2 := congrArg Prod.snd hp
    simp only [] at h1 h2
    exact ⟨wfp, by rw [h2], h1.symm⟩

set_option maxHeartbeats 2000000 in
/-- C5: after every successful `wavfile_init` on a seekable stream (whose
size is then known and equal to the byte list's length),
`data_start + data_size` never exceeds the file size and
`samples = data_size / block_align`; concretely, on `c5file` — whose `data`
chunk declares 100 bytes while only 4 remain — the resolved `data_size` is
the 4 actually-remaining bytes and `samples = 4 / 1`. -/
theorem wav_c5_data_clamped :
    (∀ (data : List Nat) (p : Nat) (wf1 : WavFile) (f1 : AftFile),
      data.length < 18446744073709551616 →
      wavfile_init false (some ⟨data, p⟩) true = some (wf1, f1) →
      wf1.data_start + wf1.data_size ≤ data.length ∧
      wf1.samples = wf1.data_size / wf1.block_align) ∧
    wavfile_init false (some ⟨c5file, 0⟩) true = some (c5wf, c5fp) := by
  constructor
  · intro data p wf1 f1 hlen h
    simp only [wavfile_init, wavfile_init_core] at h
    split_ifs at h
    all_goals (
      obtain ⟨wfp, hpc, hww⟩ := initFormats_some h
      subst hww
      have i1 := posInv_read4
        (f := ({ (⟨data, p⟩ : AftFile) with pos := 0 } : AftFile)) (k := 0) (Or.inl rfl)
      have i2 := posInv_read4 i1
      have i3 := posInv_read4 i2
      have hres := parseChunks_sound _ _ _ false wfp f1 hpc rfl
        (by simp only [read4le_data])
        (by simp only [read4le_data]; exact hlen)
        i3
      simp only [read4le_data] at hres
      exact ⟨hres.1, hres.2⟩)
  · rfl

theorem wav_c5_witness :
    c5wf.data_start + c5wf.data_size ≤ c5file.length ∧
    c5wf.samples = c5wf.data_size / c5wf.block_align :=
  wav_c5_data_clamped.1 c5file 0 c5wf c5fp (by decide) wav_c5_data_clamped.2
